import Mathlib

/-!
Shallow embedding of `src/brt/pytantivy/src/wrappers.rs`: the tantivy index
wrapper (`TantivyIndexWrapper`), the batch ingestion handle (`BatchIndexer`),
and the parts of the tantivy library the wrapper calls (schema builder,
single-writer index, query parsing and top-K search).

Modelling conventions:
- Rust `&self` methods that mutate the underlying index become explicit
  state passing: each operation returns the updated wrapper state.
- `tantivy::Result<T>` becomes `Except TantivyError T`.
- A Rust panic (an `.unwrap()` on `None`/`Err`) is a distinct outcome,
  modelled by `RustOutcome.panicked` / `SearchResult.panicked`, never
  conflated with a returned error value.
- Field identities (`tantivy::schema::Field`) are indices into the schema's
  field list, exactly as in tantivy. `Schema::get_field` resolves a name
  through a name-to-field map built by insertion (later fields with the same
  name overwrite earlier ones), hence the "last occurrence wins" lookup.
- The tantivy default tokenizer splits on non-alphanumeric characters and
  lowercases; the query parser rejects syntactically malformed queries (here
  represented by the canonical example: an unbalanced `"` quote) and otherwise
  yields the query's terms; `TopDocs::with_limit(10)` truncates the ranked
  match list to at most 10 hits; ranking over the committed generation is
  deterministic, modelled as index order.
-/

set_option autoImplicit false

namespace Wrappers

/-- Error type standing for `tantivy::TantivyError`, restricted to the cases
the wrapper can actually surface: a writer-lock acquisition failure
(`index.writer(...)` when a writer is already open), a query-parse failure
(carrying the offending query string), and a stored-document fetch failure. -/
inductive TantivyError where
  | lockBusy : TantivyError
  | queryParserError : String → TantivyError
  | docFetchFailed : TantivyError
deriving DecidableEq, Repr

/-- Outcome of a Rust call that may panic (`.unwrap()` on a failed result):
either a normal value or a process panic. -/
inductive RustOutcome (α : Type) where
  | ok : α → RustOutcome α
  | panicked : RustOutcome α
deriving DecidableEq, Repr

/-- Text-field options: `TEXT` is indexed-only, `TEXT | STORED` additionally
stores the raw text for retrieval. -/
structure TextOptions where
  indexed : Bool
  stored : Bool
deriving DecidableEq, Repr

/-- The `TEXT` option from tantivy: indexed, not stored. -/
def TEXT : TextOptions := ⟨true, false⟩

/-- The `TEXT | STORED` option from tantivy: indexed and stored. -/
def TEXT_STORED : TextOptions := ⟨true, true⟩

/-- The immutable schema: the ordered list of (field name, options) entries,
in the order they were added to the builder. A field identity is an index
into this list. -/
structure Schema where
  fields : List (String × TextOptions)
deriving DecidableEq, Repr

/-- The schema builder (`tantivy::schema::SchemaBuilder`). -/
structure SchemaBuilder where
  fields : List (String × TextOptions)
deriving DecidableEq, Repr

/-- `SchemaBuilder::add_text_field`: appends the entry; tantivy performs no
duplicate-name check here. -/
def SchemaBuilder.add_text_field (b : SchemaBuilder) (name : String)
    (opts : TextOptions) : SchemaBuilder :=
  ⟨b.fields ++ [(name, opts)]⟩

/-- `SchemaBuilder::build`: freezes the field list into a schema. -/
def SchemaBuilder.build (b : SchemaBuilder) : Schema :=
  ⟨b.fields⟩

/-- Auxiliary lookup for `Schema.get_field`: returns the index (offset by `i`)
of the last entry whose name matches, mirroring tantivy's name-to-field map in
which later insertions overwrite earlier ones. -/
def getFieldFrom : List (String × TextOptions) → Nat → String → Option Nat
  | [], _, _ => none
  | (n, _) :: rest, i, name =>
    match getFieldFrom rest (i + 1) name with
    | some j => some j
    | none => if n = name then some i else none

/-- `Schema::get_field`: resolve a field name to a field identity; `none`
models tantivy's field-not-found error. -/
def Schema.get_field (s : Schema) (name : String) : Option Nat :=
  getFieldFrom s.fields 0 name

/-- `Schema::num_fields`. -/
def Schema.num_fields (s : Schema) : Nat :=
  s.fields.length

/-- A document handed to the writer: the list of (field identity, text value)
pairs, i.e. the `Vec<FieldValue>` the wrapper builds (all values are
`Value::Str`). -/
abbrev Doc := List (Nat × String)

/-- An external record (`HashMap<&str, String>`): an association list from
field name to text value (Rust hash maps have unique keys; the embedding keeps
the pairs in some iteration order). -/
abbrev Record := List (String × String)

/-- `Document::get_first`: the first value carried by the given field, if
any; the wrapper immediately reads it `.as_text()`, which succeeds because the
wrapper only ever stores `Value::Str`. -/
def getFirst (d : Doc) (f : Nat) : Option String :=
  (d.find? (fun fv => fv.1 == f)).map Prod.snd

/-- Tokenizer loop over the characters: splits on non-alphanumeric characters
and lowercases, accumulating the current token reversed in `acc`. -/
def tokenizeChars : List Char → List Char → List String
  | [], acc => if acc.isEmpty then [] else [String.mk acc.reverse]
  | c :: rest, acc =>
    if c.isAlphanum then tokenizeChars rest (c.toLower :: acc)
    else if acc.isEmpty then tokenizeChars rest []
    else String.mk acc.reverse :: tokenizeChars rest []

/-- The tantivy default tokenizer: split on non-alphanumeric, lowercase. -/
def tokenize (s : String) : List String :=
  tokenizeChars s.toList []

/-- The tantivy `QueryParser::parse_query` as used by the wrapper (all schema
fields are default fields): a syntactically malformed query — represented by
an unbalanced double quote — is a parse error; otherwise the query's terms
are its tokens. -/
def parse_query (q : String) : Except TantivyError (List String) :=
  if (q.toList.filter (fun c => c == '"')).length % 2 = 1 then
    .error (.queryParserError q)
  else
    .ok (tokenize q)

/-- Whether a field identity refers to an indexed field of the schema. -/
def fieldIndexed (s : Schema) (f : Nat) : Bool :=
  match s.fields.get? f with
  | some (_, o) => o.indexed
  | none => false

/-- Whether a document matches a parsed query: some query term occurs among
the tokens of some indexed field value of the document (tf-idf scoring makes
any document matching at least one term a candidate). -/
def docMatches (s : Schema) (terms : List String) (d : Doc) : Bool :=
  terms.any (fun t => d.any (fun fv => fieldIndexed s fv.1 && (tokenize fv.2).contains t))

/-- Addresses (positions in the committed store, offset by `i`) of the
documents matching the parsed query, in deterministic index order. -/
def matchingAddrs (s : Schema) (terms : List String) : Nat → List Doc → List Nat
  | _, [] => []
  | i, d :: rest =>
    if docMatches s terms d then i :: matchingAddrs s terms (i + 1) rest
    else matchingAddrs s terms (i + 1) rest

/-- Result of `TantivyIndexWrapper::search`: a returned `Ok(Vec<String>)`, a
returned `Err(...)`, or a process panic (the `.unwrap()` calls inside the
retrieval loop). -/
inductive SearchResult where
  | ok : List String → SearchResult
  | err : TantivyError → SearchResult
  | panicked : SearchResult
deriving DecidableEq, Repr

/-- The retrieval loop of `search`: for each hit address fetch the stored
document (`searcher.doc(doc_address)?`) and extract the display field's text
(`.get_first(title_field).unwrap().as_text().unwrap()`); a missing display
value panics, aborting the whole call. -/
def collectTitles (committed : List Doc) (title_field : Nat) : List Nat → SearchResult
  | [] => .ok []
  | addr :: rest =>
    match committed.get? addr with
    | none => .err .docFetchFailed
    | some d =>
      match getFirst d title_field with
      | none => .panicked
      | some title =>
        match collectTitles committed title_field rest with
        | .ok results => .ok (title :: results)
        | r => r

/-- The index wrapper state: the frozen schema, the stored display-field name,
the committed generation of documents (what searchers and `num_docs` see), and
whether the index's single writer lock is currently held. -/
structure TantivyIndexWrapper where
  schema : Schema
  title_field_name : String
  committed : List Doc
  lockHeld : Bool
deriving DecidableEq, Repr

/-- An `IndexWriter`: the pending (added but uncommitted) documents. -/
structure IndexWriter where
  pending : List Doc
deriving DecidableEq, Repr

/-- `Index::writer(budget)`: acquires the single writer lock; fails with a
lock-busy error when another writer is already open. The acquired writer
starts with no pending documents. -/
def TantivyIndexWrapper.openWriter (w : TantivyIndexWrapper) :
    Except TantivyError TantivyIndexWrapper :=
  if w.lockHeld then .error .lockBusy else .ok { w with lockHeld := true }

/-- `IndexWriter::commit` on a writer of this index: atomically publishes the
writer's pending documents as the next committed generation and empties the
pending buffer. -/
def commitWriter (w : TantivyIndexWrapper) (iw : IndexWriter) :
    TantivyIndexWrapper × IndexWriter × Except TantivyError Unit :=
  ({ w with committed := w.committed ++ iw.pending }, ⟨[]⟩, .ok ())

/-- `TantivyIndexWrapper::new(index_name, name_field, fields)`: builds the
schema by adding `name_field` as `TEXT | STORED` and every entry of `fields`
as `TEXT` (in order, with no duplicate handling), creates the in-RAM index
(empty committed store, writer lock free) and remembers `name_field` as the
display-field name. `index_name` is accepted but unused, as in the source. -/
def TantivyIndexWrapper.new (index_name name_field : String)
    (fields : List String) : TantivyIndexWrapper :=
  let builder0 : SchemaBuilder := ⟨[]⟩
  let builder1 := builder0.add_text_field name_field TEXT_STORED
  let builder2 := fields.foldl (fun b f => b.add_text_field f TEXT) builder1
  { schema := builder2.build
    title_field_name := name_field
    committed := []
    lockHeld := false }

/-- `TantivyIndexWrapper::field_names`: the name of every schema field, in
schema order. -/
def TantivyIndexWrapper.field_names (w : TantivyIndexWrapper) : List String :=
  w.schema.fields.map Prod.fst

/-- `TantivyIndexWrapper::num_docs`: the number of documents visible to a
fresh searcher, i.e. the size of the committed generation. -/
def TantivyIndexWrapper.num_docs (w : TantivyIndexWrapper) :
    Except TantivyError Nat :=
  .ok w.committed.length

/-- `TantivyIndexWrapper::field_vec_from_hashmap`: for each record entry look
the key up in the schema; on success push `(field, value)`, on failure skip
the entry silently (`Err(_) => {}`). -/
def TantivyIndexWrapper.field_vec_from_hashmap (w : TantivyIndexWrapper) :
    Record → Doc
  | [] => []
  | (key, value) :: rest =>
    match w.schema.get_field key with
    | some field => (field, value) :: w.field_vec_from_hashmap rest
    | none => w.field_vec_from_hashmap rest

/-- `TantivyIndexWrapper::add_document_nocommit`: builds the document from the
record and hands it to the writer. The value `index_writer.add_document`
returns is discarded by the source, so this step always returns `Ok(())`. -/
def TantivyIndexWrapper.add_document_nocommit (w : TantivyIndexWrapper)
    (iw : IndexWriter) (rec : Record) : IndexWriter × Except TantivyError Unit :=
  let doc : Doc := w.field_vec_from_hashmap rec
  (⟨iw.pending ++ [doc]⟩, .ok ())

/-- `TantivyIndexWrapper::add_document` (the transient path): open a writer
with a 50 MB budget (propagating a lock failure with `?`), add the one
document, commit, and drop the writer (releasing the lock) on every exit
path. -/
def TantivyIndexWrapper.add_document (w : TantivyIndexWrapper) (rec : Record) :
    TantivyIndexWrapper × Except TantivyError Unit :=
  match w.openWriter with
  | .error e => (w, .error e)
  | .ok w1 =>
    let iw : IndexWriter := ⟨[]⟩
    let (iw1, r1) := w1.add_document_nocommit iw rec
    match r1 with
    | .error e => ({ w1 with lockHeld := false }, .error e)
    | .ok _ =>
      let (w2, _iw2, r2) := commitWriter w1 iw1
      ({ w2 with lockHeld := false }, r2)

/-- `TantivyIndexWrapper::search`: resolve the display field
(`get_field(..).unwrap()` — a failed lookup would panic), parse the query over
all schema fields (propagating a parse error with `?`), collect the top-10
matching documents, and materialize each hit's display-field text. -/
def TantivyIndexWrapper.search (w : TantivyIndexWrapper) (q : String) :
    SearchResult :=
  match w.schema.get_field w.title_field_name with
  | none => .panicked
  | some title_field =>
    match parse_query q with
    | .error e => .err e
    | .ok terms =>
      let top_docs := (matchingAddrs w.schema terms 0 w.committed).take 10
      collectTitles w.committed title_field top_docs

/-- `BatchIndexer`: a long-lived writer handle over one index. The Rust struct
borrows the index; here the wrapper state is threaded alongside. -/
structure BatchIndexer where
  index_writer : IndexWriter
deriving DecidableEq, Repr

/-- `BatchIndexer::new`: opens a writer with a 2 GB budget and `.unwrap()`s
the result — a writer-open failure panics instead of being returned. -/
def BatchIndexer.new (w : TantivyIndexWrapper) :
    RustOutcome (BatchIndexer × TantivyIndexWrapper) :=
  match w.openWriter with
  | .error _ => .panicked
  | .ok w1 => .ok (⟨⟨[]⟩⟩, w1)

/-- `BatchIndexer::add_document`: delegate to `add_document_nocommit` on the
held writer (propagating its — never occurring — error), no commit. -/
def BatchIndexer.add_document (b : BatchIndexer) (w : TantivyIndexWrapper)
    (rec : Record) : BatchIndexer × Except TantivyError Unit :=
  let (iw1, r) := w.add_document_nocommit b.index_writer rec
  (⟨iw1⟩, r)

/-- `BatchIndexer::commit`: commit the held writer, publishing every pending
document of the batch. -/
def BatchIndexer.commit (b : BatchIndexer) (w : TantivyIndexWrapper) :
    BatchIndexer × TantivyIndexWrapper × Except TantivyError Unit :=
  let (w1, iw1, r) := commitWriter w b.index_writer
  (⟨iw1⟩, w1, r)

/-- Driver folding `BatchIndexer::add_document` over a list of records (the
"sequence of N records added through a batch handle" of the spec). -/
def batchAddAll : BatchIndexer → TantivyIndexWrapper → List Record →
    BatchIndexer × TantivyIndexWrapper
  | b, w, [] => (b, w)
  | b, w, r :: rs =>
    let (b1, _) := b.add_document w r
    batchAddAll b1 w rs

/-- Concrete scenario: an index whose single committed document was ingested
from a record carrying only the non-display field `body`, so the stored
document has no value for the display field `title`. -/
def c2w : TantivyIndexWrapper :=
  ((TantivyIndexWrapper.new "i" "title" ["body"]).add_document
    [("body", "hello")]).1

/-- Concrete scenario: an index whose writer lock is held, obtained by opening
a batch handle on a fresh index. -/
def c6w : TantivyIndexWrapper :=
  match BatchIndexer.new (TantivyIndexWrapper.new "i" "t" ["b"]) with
  | .ok (_, w1) => w1
  | .panicked => TantivyIndexWrapper.new "i" "t" ["b"]

end Wrappers

namespace Wrappers

/-- Folding `add_text_field` over a name list appends the corresponding
entries to the builder's field list. -/
theorem foldl_add_text_field (fs : List String) (o : TextOptions) :
    ∀ b : SchemaBuilder,
      (fs.foldl (fun bb f => bb.add_text_field f o) b).fields
        = b.fields ++ fs.map (fun f => (f, o)) := by
  induction fs with
  | nil => intro b; simp
  | cons f fs ih =>
    intro b
    rw [List.foldl_cons, ih, SchemaBuilder.add_text_field]
    simp

/-- The schema produced by the constructor: the display field first (stored),
then the other fields in order (indexed-only), with no duplicate handling. -/
theorem new_schema_fields (index_name name_field : String)
    (fields : List String) :
    (TantivyIndexWrapper.new index_name name_field fields).schema.fields
      = (name_field, TEXT_STORED) :: fields.map (fun f => (f, TEXT)) := by
  show (SchemaBuilder.build
      (fields.foldl (fun b f => b.add_text_field f TEXT)
        ((SchemaBuilder.mk []).add_text_field name_field TEXT_STORED))).fields
    = (name_field, TEXT_STORED) :: fields.map (fun f => (f, TEXT))
  rw [SchemaBuilder.build, foldl_add_text_field, SchemaBuilder.add_text_field]
  simp

/-- The field names reported for a constructed index: the display name
followed by the other names. -/
theorem new_field_names (index_name name_field : String)
    (fields : List String) :
    (TantivyIndexWrapper.new index_name name_field fields).field_names
      = name_field :: fields := by
  simp only [TantivyIndexWrapper.field_names, new_schema_fields, List.map_cons,
    List.map_map]
  rw [show (Prod.fst ∘ fun f => (f, TEXT)) = id from rfl, List.map_id]

/-- A name occurring in the field list is always resolvable. -/
theorem getFieldFrom_isSome_of_mem :
    ∀ (l : List (String × TextOptions)) (i : Nat) (name : String),
      name ∈ l.map Prod.fst → (getFieldFrom l i name).isSome := by
  intro l
  induction l with
  | nil => intro i name h; simp at h
  | cons p rest ih =>
    intro i name h
    obtain ⟨n, o⟩ := p
    rw [List.map_cons, List.mem_cons] at h
    show (match getFieldFrom rest (i + 1) name with
      | some j => some j
      | none => if n = name then some i else none).isSome
    cases hr : getFieldFrom rest (i + 1) name with
    | some j => simp
    | none =>
      rcases h with h | h
      · have hn : n = name := by simpa using h.symm
        simp [hn]
      · have hs := ih (i + 1) name h
        rw [hr] at hs
        simp at hs

/-- The translator is the filter-map keeping exactly the schema-known
entries. -/
theorem field_vec_eq_filterMap (w : TantivyIndexWrapper) :
    ∀ rec : Record,
      w.field_vec_from_hashmap rec
        = rec.filterMap
            (fun kv => (w.schema.get_field kv.1).map (fun f => (f, kv.2))) := by
  intro rec
  induction rec with
  | nil => rfl
  | cons kv rest ih =>
    obtain ⟨k, v⟩ := kv
    cases h : w.schema.get_field k with
    | none =>
      simp [TantivyIndexWrapper.field_vec_from_hashmap, h, ih,
        List.filterMap_cons]
    | some f =>
      simp [TantivyIndexWrapper.field_vec_from_hashmap, h, ih,
        List.filterMap_cons]

/-- Repeated batch adds leave the index state untouched and accumulate the
translated documents, in order, in the writer's pending buffer. -/
theorem batchAddAll_spec (w : TantivyIndexWrapper) :
    ∀ (rs : List Record) (b : BatchIndexer),
      (batchAddAll b w rs).2 = w ∧
      (batchAddAll b w rs).1.index_writer.pending
        = b.index_writer.pending ++ rs.map w.field_vec_from_hashmap := by
  intro rs
  induction rs with
  | nil => intro b; simp [batchAddAll]
  | cons r rs ih =>
    intro b
    have hstep :
        batchAddAll b w (r :: rs)
          = batchAddAll ⟨⟨b.index_writer.pending ++ [w.field_vec_from_hashmap r]⟩⟩ w rs := by
      simp [batchAddAll, BatchIndexer.add_document,
        TantivyIndexWrapper.add_document_nocommit]
    rcases ih ⟨⟨b.index_writer.pending ++ [w.field_vec_from_hashmap r]⟩⟩ with ⟨h1, h2⟩
    rw [hstep, h1, h2]
    simp

/-- Every address produced by `matchingAddrs` points (relative to the start
offset) at a document of the scanned list. -/
theorem matchingAddrs_get (s : Schema) (terms : List String) :
    ∀ (l : List Doc) (i a : Nat), a ∈ matchingAddrs s terms i l →
      ∃ j d, a = i + j ∧ l.get? j = some d := by
  intro l
  induction l with
  | nil => intro i a h; simp [matchingAddrs] at h
  | cons d rest ih =>
    intro i a h
    by_cases hm : docMatches s terms d
    · rw [matchingAddrs, if_pos hm, List.mem_cons] at h
      rcases h with h | h
      · exact ⟨0, d, by omega, rfl⟩
      · rcases ih (i + 1) a h with ⟨j, d', hj, hget⟩
        exact ⟨j + 1, d', by omega, by simpa using hget⟩
    · rw [matchingAddrs, if_neg hm] at h
      rcases ih (i + 1) a h with ⟨j, d', hj, hget⟩
      exact ⟨j + 1, d', by omega, by simpa using hget⟩

/-- Every hit address of a search over the committed store is fetchable. -/
theorem matchingAddrs_isSome (s : Schema) (terms : List String) (c : List Doc)
    (a : Nat) (h : a ∈ matchingAddrs s terms 0 c) : (c.get? a).isSome := by
  rcases matchingAddrs_get s terms c 0 a h with ⟨j, d, hj, hget⟩
  have haj : a = j := by omega
  rw [haj, hget]
  rfl

/-- A successful retrieval loop returns at most one display string per hit. -/
theorem collectTitles_length_le (c : List Doc) (tf : Nat) :
    ∀ (l : List Nat) (ts : List String),
      collectTitles c tf l = .ok ts → ts.length ≤ l.length := by
  intro l
  induction l with
  | nil =>
    intro ts h
    rw [collectTitles] at h
    simp at h
    simp [h]
  | cons a rest ih =>
    intro ts h
    rw [collectTitles] at h
    cases hg : c.get? a with
    | none =>
      rw [hg] at h
      replace h : SearchResult.err TantivyError.docFetchFailed
          = SearchResult.ok ts := h
      exact SearchResult.noConfusion h
    | some d =>
      rw [hg] at h
      replace h :
          (match getFirst d tf with
            | none => SearchResult.panicked
            | some title =>
              match collectTitles c tf rest with
              | SearchResult.ok results => SearchResult.ok (title :: results)
              | r => r) = SearchResult.ok ts := h
      cases hf : getFirst d tf with
      | none =>
        rw [hf] at h
        replace h : SearchResult.panicked = SearchResult.ok ts := h
        exact SearchResult.noConfusion h
      | some v =>
        rw [hf] at h
        cases hr : collectTitles c tf rest with
        | ok ts' =>
          rw [hr] at h
          replace h : SearchResult.ok (v :: ts') = SearchResult.ok ts := h
          injection h with h
          rw [← h]
          simpa using Nat.succ_le_succ (ih ts' hr)
        | err e =>
          rw [hr] at h
          replace h : SearchResult.err e = SearchResult.ok ts := h
          exact SearchResult.noConfusion h
        | panicked =>
          rw [hr] at h
          replace h : SearchResult.panicked = SearchResult.ok ts := h
          exact SearchResult.noConfusion h

/-- If every hit is fetchable and some hit's document lacks the display
field, the retrieval loop panics. -/
theorem collectTitles_panics (c : List Doc) (tf : Nat) :
    ∀ l : List Nat,
      (∀ a ∈ l, (c.get? a).isSome) →
      (∃ a ∈ l, ∃ d, c.get? a = some d ∧ getFirst d tf = none) →
      collectTitles c tf l = .panicked := by
  intro l
  induction l with
  | nil => intro _ hex; simp at hex
  | cons a rest ih =>
    intro hall hex
    have hga := hall a (List.mem_cons_self a rest)
    rcases Option.isSome_iff_exists.mp hga with ⟨d, hd⟩
    rw [collectTitles, hd]
    show (match getFirst d tf with
      | none => SearchResult.panicked
      | some title =>
        match collectTitles c tf rest with
        | SearchResult.ok results => SearchResult.ok (title :: results)
        | r => r) = SearchResult.panicked
    cases hf : getFirst d tf with
    | none => rfl
    | some v =>
      have hrest : ∃ a' ∈ rest, ∃ d', c.get? a' = some d' ∧ getFirst d' tf = none := by
        rcases hex with ⟨a', ha', d', hd', hf'⟩
        rcases List.mem_cons.mp ha' with rfl | hmem
        · rw [hd] at hd'
          injection hd' with e
          subst e
          rw [hf] at hf'
          exact Option.noConfusion hf'
        · exact ⟨a', hmem, d', hd', hf'⟩
      have hrec := ih (fun a' ha' => hall a' (List.mem_cons_of_mem _ ha')) hrest
      show (match collectTitles c tf rest with
        | SearchResult.ok results => SearchResult.ok (v :: results)
        | r => r) = SearchResult.panicked
      rw [hrec]

/-- C1: for every index with document count 0 (and its writer lock free, so
the batch handle can be opened) and every sequence of records added through a
batch handle, `num_docs` stays 0 as long as `commit` has not been called;
the single terminal `commit` succeeds and afterwards `num_docs` equals the
number of records added. -/
theorem batch_count_c1 (w : TantivyIndexWrapper) (rs : List Record)
    (h0 : w.num_docs = .ok 0) (hfree : w.lockHeld = false) :
    ∃ b0 w1, BatchIndexer.new w = .ok (b0, w1) ∧
      (batchAddAll b0 w1 rs).2.num_docs = .ok 0 ∧
      ((batchAddAll b0 w1 rs).1.commit (batchAddAll b0 w1 rs).2).2.2 = .ok () ∧
      ((batchAddAll b0 w1 rs).1.commit (batchAddAll b0 w1 rs).2).2.1.num_docs
        = .ok rs.length := by
  obtain ⟨sch, tfn, comm, lock⟩ := w
  replace hfree : lock = false := hfree
  subst hfree
  simp only [TantivyIndexWrapper.num_docs, Except.ok.injEq] at h0
  replace h0 : comm.length = 0 := h0
  have hcomm : comm = [] := List.eq_nil_of_length_eq_zero h0
  subst hcomm
  refine ⟨⟨⟨[]⟩⟩, ⟨sch, tfn, [], true⟩, rfl, ?_, rfl, ?_⟩
  · rcases batchAddAll_spec ⟨sch, tfn, [], true⟩ rs ⟨⟨[]⟩⟩ with ⟨h1, _⟩
    rw [h1]
    rfl
  · rcases batchAddAll_spec ⟨sch, tfn, [], true⟩ rs ⟨⟨[]⟩⟩ with ⟨h1, h2⟩
    rw [h1]
    simp [BatchIndexer.commit, commitWriter, TantivyIndexWrapper.num_docs, h2]

/-- C1 witness: a fresh two-field index, two records added through a batch
handle: `num_docs` is 0 before the commit and 2 after it. -/
theorem batch_count_c1_witness :
    ∃ b0 w1,
      BatchIndexer.new (TantivyIndexWrapper.new "i" "t" ["b"]) = .ok (b0, w1) ∧
      (batchAddAll b0 w1 [[("t", "x")], [("t", "y")]]).2.num_docs = .ok 0 ∧
      ((batchAddAll b0 w1 [[("t", "x")], [("t", "y")]]).1.commit
        (batchAddAll b0 w1 [[("t", "x")], [("t", "y")]]).2).2.2 = .ok () ∧
      ((batchAddAll b0 w1 [[("t", "x")], [("t", "y")]]).1.commit
        (batchAddAll b0 w1 [[("t", "x")], [("t", "y")]]).2).2.1.num_docs
        = .ok 2 :=
  batch_count_c1 (TantivyIndexWrapper.new "i" "t" ["b"])
    [[("t", "x")], [("t", "y")]] rfl rfl

/-- C2 counterexample: on an index whose single committed document lacks the
display field, a query hitting that document does not omit the hit and return
the remaining (empty) result list — the search panics. -/
theorem search_missing_display_panics_cex_c2 :
    c2w.search "hello" = .panicked ∧ c2w.search "hello" ≠ .ok [] :=
  ⟨rfl, fun h => SearchResult.noConfusion h⟩

/-- C2 amended: if any top-10 hit of a successfully parsed query lacks a
value for the display field, `search` panics (the `.unwrap()` in the
retrieval loop) instead of omitting the hit and returning the others. -/
theorem search_missing_display_c2 (w : TantivyIndexWrapper) (q : String)
    (tf : Nat) (terms : List String)
    (htitle : w.schema.get_field w.title_field_name = some tf)
    (hparse : parse_query q = .ok terms)
    (hmiss : ∃ a ∈ (matchingAddrs w.schema terms 0 w.committed).take 10,
      ∃ d, w.committed.get? a = some d ∧ getFirst d tf = none) :
    w.search q = .panicked := by
  simp only [TantivyIndexWrapper.search, htitle, hparse]
  apply collectTitles_panics
  · intro a ha
    exact matchingAddrs_isSome _ _ _ _ (List.take_subset _ _ ha)
  · exact hmiss

/-- C2 witness: the amended statement applied to the concrete scenario: the
single committed document carries only the `body` field, the query "hello"
hits it, and the search panics. -/
theorem search_missing_display_c2_witness : c2w.search "hello" = .panicked :=
  search_missing_display_c2 c2w "hello" 0 ["hello"] rfl rfl
    ⟨0, by decide, [(1, "hello")], rfl, rfl⟩

/-- C3: the translator produces exactly the record's schema-known
(field, text) pairs — a pair is in the produced document iff it comes from a
record entry whose key resolves in the schema — and a record with no
schema-known key yields the empty document; unknown keys are skipped with no
error (the function is total and returns a plain document). -/
theorem translate_exact_c3 (w : TantivyIndexWrapper) (rec : Record) :
    (∀ f v, (f, v) ∈ w.field_vec_from_hashmap rec ↔
      ∃ k, (k, v) ∈ rec ∧ w.schema.get_field k = some f) ∧
    ((∀ kv ∈ rec, w.schema.get_field kv.1 = none) →
      w.field_vec_from_hashmap rec = []) := by
  constructor
  · intro f v
    rw [field_vec_eq_filterMap, List.mem_filterMap]
    constructor
    · rintro ⟨⟨k, v'⟩, hmem, hmap⟩
      rcases Option.map_eq_some'.mp hmap with ⟨f', hget, heq⟩
      obtain ⟨hf, hv⟩ : f' = f ∧ v' = v := by
        constructor <;> [exact congrArg Prod.fst heq; exact congrArg Prod.snd heq]
      subst hf
      subst hv
      exact ⟨k, hmem, hget⟩
    · rintro ⟨k, hmem, hget⟩
      refine ⟨(k, v), hmem, ?_⟩
      rw [hget]
      rfl
  · intro hnone
    rw [field_vec_eq_filterMap]
    apply List.filterMap_eq_nil_iff.mpr
    intro kv hkv
    rw [hnone kv hkv]
    rfl

/-- C3 witness: a record with one schema-known key (`t`) and one unknown key
(`zz`) on a two-field schema. -/
theorem translate_exact_c3_witness :
    (∀ f v,
      (f, v) ∈ (TantivyIndexWrapper.new "i" "t" ["b"]).field_vec_from_hashmap
        [("t", "x"), ("zz", "y")] ↔
      ∃ k, (k, v) ∈ ([("t", "x"), ("zz", "y")] : Record) ∧
        (TantivyIndexWrapper.new "i" "t" ["b"]).schema.get_field k = some f) ∧
    ((∀ kv ∈ ([("t", "x"), ("zz", "y")] : Record),
      (TantivyIndexWrapper.new "i" "t" ["b"]).schema.get_field kv.1 = none) →
      (TantivyIndexWrapper.new "i" "t" ["b"]).field_vec_from_hashmap
        [("t", "x"), ("zz", "y")] = []) :=
  translate_exact_c3 (TantivyIndexWrapper.new "i" "t" ["b"])
    [("t", "x"), ("zz", "y")]

/-- C4: a query the parser rejects as malformed makes `search` return that
query-parse error to the caller — it neither panics nor returns a successful
result list (the display-field lookup preceding the parse must succeed, which
holds for every constructor-built index by C9). -/
theorem search_parse_error_c4 (w : TantivyIndexWrapper) (q : String)
    (e : TantivyError)
    (htitle : (w.schema.get_field w.title_field_name).isSome)
    (hparse : parse_query q = .error e) :
    w.search q = .err e := by
  rcases Option.isSome_iff_exists.mp htitle with ⟨tf, htf⟩
  simp only [TantivyIndexWrapper.search, htf, hparse]

/-- C4 witness: a query consisting of a single unbalanced quote on a fresh
index is answered with the parse error, not a crash and not `ok`. -/
theorem search_parse_error_c4_witness :
    (TantivyIndexWrapper.new "i" "t" ["b"]).search "\""
      = .err (.queryParserError "\"") :=
  search_parse_error_c4 (TantivyIndexWrapper.new "i" "t" ["b"]) "\""
    (.queryParserError "\"") rfl rfl

/-- C5 counterexample: constructing an index whose display field name also
appears in the other-fields list neither fails nor deduplicates — the schema
silently keeps both same-named entries. -/
theorem dup_field_silent_cex_c5 :
    (TantivyIndexWrapper.new "i" "t" ["t"]).schema.fields
      = [("t", TEXT_STORED), ("t", TEXT)] := rfl

/-- C5 amended: the constructor performs no duplicate check at all: the built
schema is always the display entry followed by one entry per other field, in
order, even when names collide (no error value exists — the constructor is
total). -/
theorem schema_no_dup_check_c5 (index_name name_field : String)
    (fields : List String) :
    (TantivyIndexWrapper.new index_name name_field fields).schema.fields
      = (name_field, TEXT_STORED) :: fields.map (fun f => (f, TEXT)) :=
  new_schema_fields index_name name_field fields

/-- C5 witness: the amended statement at a concrete schema. -/
theorem schema_no_dup_check_c5_witness :
    (TantivyIndexWrapper.new "n" "d" ["a"]).schema.fields
      = ("d", TEXT_STORED) :: (["a"].map (fun f => (f, TEXT))) :=
  schema_no_dup_check_c5 "n" "d" ["a"]

/-- C6 counterexample: with the writer lock already held, the batch path
`BatchIndexer::new` panics (its `.unwrap()`) instead of reporting the
writer-open failure as an error value; the transient path does return an
error value — so the claim, which asserts the recoverable-error behavior for
both paths, fails on the batch path. -/
theorem batch_writer_panic_cex_c6 :
    BatchIndexer.new c6w = .panicked ∧
    c6w.add_document [("t", "x")] = (c6w, .error .lockBusy) := ⟨rfl, rfl⟩

/-- C6 amended: when the writer lock is held, the transient path
`add_document` returns the writer-open failure to its caller as an error
value, leaving the index state untouched (no retry, no crash), while the
batch path `BatchIndexer::new` panics on the same failure. -/
theorem writer_open_failure_c6 (w : TantivyIndexWrapper) (rec : Record)
    (hbusy : w.lockHeld = true) :
    w.add_document rec = (w, .error .lockBusy) ∧
    BatchIndexer.new w = .panicked := by
  constructor
  · simp [TantivyIndexWrapper.add_document, TantivyIndexWrapper.openWriter,
      hbusy]
  · simp [BatchIndexer.new, TantivyIndexWrapper.openWriter, hbusy]

/-- C6 witness: the amended statement on the concrete lock-held index. -/
theorem writer_open_failure_c6_witness :
    c6w.add_document [("b", "z")] = (c6w, .error .lockBusy) ∧
    BatchIndexer.new c6w = .panicked :=
  writer_open_failure_c6 c6w [("b", "z")] rfl

/-- C7 counterexample: a schema built with the display name repeated among
the other fields makes `field_names` return the name twice — the claimed
no-duplicates property fails without a distinctness assumption. -/
theorem field_names_dup_cex_c7 :
    (TantivyIndexWrapper.new "i" "t" ["t"]).field_names = ["t", "t"] ∧
    ¬ (TantivyIndexWrapper.new "i" "t" ["t"]).field_names.Nodup := by
  constructor
  · rfl
  · intro h
    replace h : (["t", "t"] : List String).Nodup := h
    simp at h

/-- C7 amended: provided the display name does not occur among the other
names and the other names are pairwise distinct, `field_names` returns
exactly the set containing the display name and the other names, with no
duplicated name. -/
theorem field_names_exact_c7 (index_name name_field : String)
    (fields : List String) (hnotmem : name_field ∉ fields)
    (hnodup : fields.Nodup) :
    (TantivyIndexWrapper.new index_name name_field fields).field_names.toFinset
      = insert name_field fields.toFinset ∧
    (TantivyIndexWrapper.new index_name name_field fields).field_names.Nodup := by
  rw [new_field_names]
  exact ⟨List.toFinset_cons, List.nodup_cons.mpr ⟨hnotmem, hnodup⟩⟩

/-- C7 witness: the amended statement at a concrete three-field schema with
distinct names. -/
theorem field_names_exact_c7_witness :
    (TantivyIndexWrapper.new "i" "t" ["a", "b"]).field_names.toFinset
      = insert "t" (["a", "b"] : List String).toFinset ∧
    (TantivyIndexWrapper.new "i" "t" ["a", "b"]).field_names.Nodup :=
  field_names_exact_c7 "i" "t" ["a", "b"] (by decide) (by decide)

/-- C8: a successful search returns at most 10 display strings (the top-K
limit baked into the retrieval), and a successfully parsed query matching no
committed document returns the empty list, not an error (the display-field
lookup must succeed, which holds for every constructor-built index by C9). -/
theorem search_topk_c8 (w : TantivyIndexWrapper) (q : String)
    (htitle : (w.schema.get_field w.title_field_name).isSome) :
    (∀ titles, w.search q = .ok titles → titles.length ≤ 10) ∧
    (∀ terms, parse_query q = .ok terms →
      matchingAddrs w.schema terms 0 w.committed = [] →
      w.search q = .ok []) := by
  rcases Option.isSome_iff_exists.mp htitle with ⟨tf, htf⟩
  constructor
  · intro titles h
    cases hp : parse_query q with
    | error e =>
      simp only [TantivyIndexWrapper.search, htf, hp] at h
      exact SearchResult.noConfusion h
    | ok terms =>
      simp only [TantivyIndexWrapper.search, htf, hp] at h
      have hlen := collectTitles_length_le w.committed tf _ titles h
      calc titles.length
          ≤ ((matchingAddrs w.schema terms 0 w.committed).take 10).length := hlen
        _ ≤ 10 := by
            rw [List.length_take]
            exact min_le_left _ _
  · intro terms hp hm
    simp only [TantivyIndexWrapper.search, htf, hp, hm]
    rfl

/-- C8 witness: a one-document index queried for a term occurring nowhere
answers with the empty list, and any successful answer has at most 10
entries. -/
theorem search_topk_c8_witness :
    (∀ titles,
      ((TantivyIndexWrapper.new "i" "t" ["b"]).add_document
        [("t", "apple")]).1.search "zebra" = .ok titles →
      titles.length ≤ 10) ∧
    (∀ terms, parse_query "zebra" = .ok terms →
      matchingAddrs ((TantivyIndexWrapper.new "i" "t" ["b"]).add_document
          [("t", "apple")]).1.schema terms 0
        ((TantivyIndexWrapper.new "i" "t" ["b"]).add_document
          [("t", "apple")]).1.committed = [] →
      ((TantivyIndexWrapper.new "i" "t" ["b"]).add_document
        [("t", "apple")]).1.search "zebra" = .ok []) :=
  search_topk_c8
    ((TantivyIndexWrapper.new "i" "t" ["b"]).add_document [("t", "apple")]).1
    "zebra" rfl

/-- C9: for every index produced by the public constructor, the stored
display-field name resolves in the schema, so the `get_field(..).unwrap()`
at the start of `search` cannot fail. -/
theorem title_resolvable_c9 (index_name name_field : String)
    (fields : List String) :
    ((TantivyIndexWrapper.new index_name name_field fields).schema.get_field
      (TantivyIndexWrapper.new index_name name_field fields).title_field_name).isSome := by
  have ht : (TantivyIndexWrapper.new index_name name_field fields).title_field_name
      = name_field := rfl
  rw [ht, Schema.get_field]
  apply getFieldFrom_isSome_of_mem
  rw [new_schema_fields]
  simp

/-- C9 witness: the display-field lookup succeeds on a concrete
constructor-built index. -/
theorem title_resolvable_c9_witness :
    ((TantivyIndexWrapper.new "i" "t" ["b"]).schema.get_field
      (TantivyIndexWrapper.new "i" "t" ["b"]).title_field_name).isSome :=
  title_resolvable_c9 "i" "t" ["b"]

/-- C10: the uncommitted add step always returns success — both
`add_document_nocommit` and `BatchIndexer::add_document` return `Ok(())`
unconditionally for every writer state and record (the value returned by the
underlying writer add is discarded by the source). -/
theorem add_infallible_c10 (w : TantivyIndexWrapper) (iw : IndexWriter)
    (b : BatchIndexer) (rec : Record) :
    (w.add_document_nocommit iw rec).2 = .ok () ∧
    (b.add_document w rec).2 = .ok () := ⟨rfl, rfl⟩

/-- C10 witness: the add step succeeds on a concrete index, writer and
record. -/
theorem add_infallible_c10_witness :
    ((TantivyIndexWrapper.new "i" "t" ["b"]).add_document_nocommit ⟨[]⟩
      [("t", "x")]).2 = .ok () ∧
    ((BatchIndexer.mk ⟨[]⟩).add_document (TantivyIndexWrapper.new "i" "t" ["b"])
      [("t", "x")]).2 = .ok () :=
  add_infallible_c10 (TantivyIndexWrapper.new "i" "t" ["b"]) ⟨[]⟩ ⟨⟨[]⟩⟩
    [("t", "x")]

end Wrappers
